import Mathlib

/-!
Verification of the Label Print Orchestration Core of the
SistemaDeImpressaoDeEtiquetas application.

The development shallowly embeds the TypeScript functions of the repository:

* `calculateEAN13CheckDigit` and `getEAN13Encoding`
  (src/app/etiquetas/page.tsx) — the barcode encoder;
* `handlePrintSelected` (src/app/impressao/page.tsx) — the batch scheduler;
* `loadSavedConfig`, `setSelectedPrinter`, `searchPrinters`, `processPrinters`
  (src/contexts/printer-context.tsx) — the printer-identity store.

Strings are modelled by Lean `String`/`List Char`; JavaScript numbers
holding digit values by `Nat`; `null`/`undefined`/`''`-sentinels by
`Option`; the ordered iteration of a plain JS object keyed by integer-like
keys (ascending numeric key order per the ECMAScript own-property order)
by an explicit sort; external `invoke` calls by oracles recorded in the
returned state.
-/

/-! ## Barcode encoder (src/app/etiquetas/page.tsx) -/

/-- JS `Number(c)` on a single digit character: the digit value of `c`. -/
def toDigit (c : Char) : Nat := c.toNat - 48

/-- JS `s.padStart(12, "0")` on a list of at most 12 characters. -/
def padStart12 (l : List Char) : List Char := List.replicate (12 - l.length) '0' ++ l

/-- Embedding of `calculateEAN13CheckDigit` (etiquetas/page.tsx lines 43-51):
`code.slice(0, 12).split("").map(Number)` then `reduce` with weight
1 at even indices and 3 at odd indices, finally `(10 - sum % 10) % 10`. -/
def calculateEAN13CheckDigit (code : String) : Nat :=
  let digits := (code.data.take 12).map toDigit
  let sum := digits.enum.foldl (fun acc p => acc + p.2 * (if p.1 % 2 = 0 then 1 else 3)) 0
  (10 - sum % 10) % 10

/-- The two left-hand (odd/even parity) pattern tables of `getEAN13Encoding`. -/
def leftHandPatterns : List (List String) :=
  [["0001101", "0011001", "0010011", "0111101", "0100011",
    "0110001", "0101111", "0111011", "0110111", "0001011"],
   ["0100111", "0110011", "0011011", "0100001", "0011101",
    "0111001", "0000101", "0010001", "0001001", "0010111"]]

/-- The fixed right-hand pattern table of `getEAN13Encoding`. -/
def rightHandPattern : List String :=
  ["1110010", "1100110", "1101100", "1000010", "1011100",
   "1001110", "1010000", "1000100", "1001000", "1110100"]

/-- Embedding of `getEAN13Encoding` (etiquetas/page.tsx lines 54-95).
`paddedCode = code.slice(0,12).padStart(12,"0")`; the check digit is computed
on the padded code; `fullCode = paddedCode + checkDigit` is kept as its digit
values; the two loops (left positions 1..6 with parity set
`firstDigit & (1 << (5 - (i-1))) ? 1 : 0`, right positions 7..12) are folds
over `List.range 6`. -/
def getEAN13Encoding (code : String) : String :=
  let paddedCode := padStart12 (code.data.take 12)
  let checkDigit := calculateEAN13CheckDigit (String.mk paddedCode)
  let fullCode : List Nat := paddedCode.map toDigit ++ [checkDigit]
  let firstDigit := fullCode.headD 0
  let leftPart := ((List.range 6).map (fun k =>
    let digit := fullCode.getD (k + 1) 0
    let patternSet := if firstDigit &&& (1 <<< (5 - k)) ≠ 0 then 1 else 0
    ((leftHandPatterns.getD patternSet []).getD digit "").data)).flatten
  let rightPart := ((List.range 6).map (fun k =>
    let digit := fullCode.getD (k + 7) 0
    (rightHandPattern.getD digit "").data)).flatten
  String.mk ("101".data ++ leftPart ++ "01010".data ++ rightPart ++ "101".data)

/-! ### Claim-side (spec-worded) definitions for the encoder -/

/-- Weight of digit position `i` in the EAN-13 checksum: 1 even, 3 odd. -/
def ean13Weight (i : Nat) : Nat := if i % 2 = 0 then 1 else 3

/-- Weighted digit sum starting at position `i`, written recursively
(independently of the `reduce`-style fold of the source). -/
def weightedSumFrom : Nat → List Nat → Nat
  | _, [] => 0
  | i, d :: ds => d * ean13Weight i + weightedSumFrom (i + 1) ds

/-- The check digit exactly as claim C1 words it: truncate the input to its
first 12 characters, left-pad with '0' to exactly 12 digits, weighted sum,
then `(10 - sum mod 10) mod 10`. -/
def checkDigitPaddedSpec (s : String) : Nat :=
  (10 - weightedSumFrom 0 ((padStart12 (s.data.take 12)).map toDigit) % 10) % 10

/-- A string is numeric when every character is an ASCII digit. -/
def NumericString (s : String) : Prop := ∀ c ∈ s.data, 48 ≤ c.toNat ∧ c.toNat ≤ 57

instance (s : String) : Decidable (NumericString s) := by
  unfold NumericString; infer_instance

/-! ### Encoder lemmas -/

theorem foldl_enumFrom_weighted (l : List Nat) : ∀ (i acc : Nat),
    (List.enumFrom i l).foldl (fun acc p => acc + p.2 * (if p.1 % 2 = 0 then 1 else 3)) acc
      = acc + weightedSumFrom i l := by
  induction l with
  | nil => intro i acc; simp [weightedSumFrom]
  | cons d ds ih =>
    intro i acc
    show (List.enumFrom (i + 1) ds).foldl _ (acc + d * _) = _
    rw [ih]
    simp [weightedSumFrom, ean13Weight]
    ring

theorem calculateEAN13CheckDigit_eq_weightedSum (code : String) :
    calculateEAN13CheckDigit code
      = (10 - weightedSumFrom 0 ((code.data.take 12).map toDigit) % 10) % 10 := by
  show (10 - (List.enumFrom 0 ((code.data.take 12).map toDigit)).foldl
      (fun acc p => acc + p.2 * (if p.1 % 2 = 0 then 1 else 3)) 0 % 10) % 10 = _
  rw [foldl_enumFrom_weighted]
  simp

theorem calculateEAN13CheckDigit_le_nine (code : String) :
    calculateEAN13CheckDigit code ≤ 9 := by
  simp only [calculateEAN13CheckDigit]
  omega

theorem padStart12_of_length_le {l : List Char} (h : l.length ≤ 12) :
    (padStart12 l).take 12 = padStart12 l := by
  apply List.take_of_length_le
  simp [padStart12]
  omega

/-- The check digit the encoder actually uses: `calculateEAN13CheckDigit`
applied to the already-padded code agrees with the claim's padded formula. -/
theorem checkDigit_padded_eq_spec (s : String) :
    calculateEAN13CheckDigit (String.mk (padStart12 (s.data.take 12)))
      = checkDigitPaddedSpec s := by
  rw [calculateEAN13CheckDigit_eq_weightedSum, checkDigitPaddedSpec]
  have h : (String.mk (padStart12 (s.data.take 12))).data.take 12
      = padStart12 (s.data.take 12) := by
    apply padStart12_of_length_le
    have := List.length_take_le 12 s.data
    exact this
  rw [h]

/-- C1 counterexample: on the 1-character numeric input `"1"`,
`calculateEAN13CheckDigit` returns 9 (it weighs the digit at its own index
0, without left-padding), while the claim's truncate-then-pad formula gives
7 (the padded digit sits at odd index 11 and is weighted 3). -/
theorem claim_C1_counterexample :
    NumericString "1"
    ∧ calculateEAN13CheckDigit "1" = 9
    ∧ checkDigitPaddedSpec "1" = 7
    ∧ calculateEAN13CheckDigit "1" ≠ checkDigitPaddedSpec "1" := by
  refine ⟨by decide, by decide, by decide, by decide⟩

/-- C1 (amended): `calculateEAN13CheckDigit` truncates its input to the
first 12 characters but performs no left-padding itself, so the claim's
formula holds only for inputs of length at least 12; the left-padding
happens in `getEAN13Encoding` before the check digit is computed, and the
check digit of the padded code always satisfies the claim's
truncate-then-pad formula. The result is always in `[0, 9]`. -/
theorem claim_C1_main (s : String) :
    calculateEAN13CheckDigit s ≤ 9
    ∧ (12 ≤ s.data.length → calculateEAN13CheckDigit s = checkDigitPaddedSpec s)
    ∧ calculateEAN13CheckDigit (String.mk (padStart12 (s.data.take 12)))
        = checkDigitPaddedSpec s := by
  refine ⟨calculateEAN13CheckDigit_le_nine s, fun h12 => ?_, checkDigit_padded_eq_spec s⟩
  rw [calculateEAN13CheckDigit_eq_weightedSum, checkDigitPaddedSpec]
  have hlen : (s.data.take 12).length = 12 := by
    rw [List.length_take]
    omega
  have hpad : padStart12 (s.data.take 12) = s.data.take 12 := by
    simp [padStart12, hlen]
  rw [hpad]

/-- C1 witness: on the spec's round-trip example code `"789846581577"`
(length 12) the source function and the claim's formula agree, giving
check digit 1. -/
theorem claim_C1_witness :
    calculateEAN13CheckDigit "789846581577" = checkDigitPaddedSpec "789846581577"
    ∧ calculateEAN13CheckDigit "789846581577" = 1 :=
  ⟨(claim_C1_main "789846581577").2.1 (by decide), by decide⟩

/-! ### Claim C2: encoder output structure -/

/-- The 13-digit full code of claim C2: the 12 supplied digits (after the
encoder's truncate-and-pad) followed by the computed check digit. -/
def fullCodeSpec (s : String) : List Nat :=
  (padStart12 (s.data.take 12)).map toDigit
    ++ [calculateEAN13CheckDigit (String.mk (padStart12 (s.data.take 12)))]

/-- Left-hand chunk for position `k` (0-based), choosing the parity table by
bit `(firstDigit >>> (5 - k)) &&& 1`, exactly as claim C2 words it. -/
def leftChunkSpec (first d k : Nat) : List Char :=
  ((leftHandPatterns.getD ((first >>> (5 - k)) &&& 1) []).getD d "").data

/-- Right-hand chunk: the single fixed right-hand table. -/
def rightChunkSpec (d : Nat) : List Char := (rightHandPattern.getD d "").data

/-- The claim's structural decomposition of the 95-module pattern. -/
def encodeStructureSpec (s : String) : List Char :=
  let fc := fullCodeSpec s
  "101".data
    ++ ((List.range 6).map (fun k => leftChunkSpec (fc.headD 0) (fc.getD (k + 1) 0) k)).flatten
    ++ "01010".data
    ++ ((List.range 6).map (fun k => rightChunkSpec (fc.getD (k + 7) 0))).flatten
    ++ "101".data

theorem parity_bit_eq : ∀ f < 10, ∀ k < 6,
    (if f &&& (1 <<< (5 - k)) ≠ 0 then 1 else 0) = (f >>> (5 - k)) &&& 1 := by decide

theorem parity_bit_lt_two : ∀ f < 10, ∀ k < 6, (f >>> (5 - k)) &&& 1 < 2 := by decide

theorem leftPattern_length : ∀ ps < 2, ∀ d < 10,
    ((leftHandPatterns.getD ps []).getD d "").data.length = 7 := by decide

theorem rightPattern_length : ∀ d < 10, (rightHandPattern.getD d "").data.length = 7 := by
  decide

theorem leftPattern_binary : ∀ ps < 2, ∀ d < 10,
    ∀ c ∈ ((leftHandPatterns.getD ps []).getD d "").data, c = '0' ∨ c = '1' := by decide

theorem rightPattern_binary : ∀ d < 10,
    ∀ c ∈ (rightHandPattern.getD d "").data, c = '0' ∨ c = '1' := by decide

theorem toDigit_lt_ten {s : String} (hnum : NumericString s) :
    ∀ c ∈ padStart12 (s.data.take 12), toDigit c < 10 := by
  intro c hc
  rcases List.mem_append.1 hc with h | h
  · rcases (List.mem_replicate.1 h) with ⟨-, rfl⟩
    decide
  · have hcs : c ∈ s.data := List.take_subset 12 s.data h
    have := hnum c hcs
    unfold toDigit
    omega

theorem fullCodeSpec_lt_ten {s : String} (hnum : NumericString s) :
    ∀ d ∈ fullCodeSpec s, d < 10 := by
  intro d hd
  rcases List.mem_append.1 hd with h | h
  · rcases List.mem_map.1 h with ⟨c, hc, rfl⟩
    exact toDigit_lt_ten hnum c hc
  · rcases List.mem_singleton.1 h with rfl
    have := calculateEAN13CheckDigit_le_nine (String.mk (padStart12 (s.data.take 12)))
    omega

theorem padStart12_length {l : List Char} (h : l.length ≤ 12) :
    (padStart12 l).length = 12 := by
  simp [padStart12]
  omega

theorem fullCodeSpec_length (s : String) : (fullCodeSpec s).length = 13 := by
  have h : (s.data.take 12).length ≤ 12 := List.length_take_le 12 s.data
  simp [fullCodeSpec, padStart12_length h]

theorem fullCodeSpec_getD_lt_ten {s : String} (hnum : NumericString s) :
    ∀ i, (fullCodeSpec s).getD i 0 < 10 := by
  intro i
  by_cases h : i < (fullCodeSpec s).length
  · rw [List.getD_eq_getElem _ _ h]
    exact fullCodeSpec_lt_ten hnum _ (List.getElem_mem h)
  · rw [List.getD_eq_default _ _ (by omega)]
    decide

theorem headD_eq_getD_zero (l : List Nat) : l.headD 0 = l.getD 0 0 := by
  cases l <;> rfl

theorem fullCodeSpec_headD_lt_ten {s : String} (hnum : NumericString s) :
    (fullCodeSpec s).headD 0 < 10 := by
  rw [headD_eq_getD_zero]
  exact fullCodeSpec_getD_lt_ten hnum 0

theorem encode_data_eq (s : String) (hnum : NumericString s) :
    (getEAN13Encoding s).data = encodeStructureSpec s := by
  have hf : (fullCodeSpec s).headD 0 < 10 := fullCodeSpec_headD_lt_ten hnum
  show "101".data
      ++ ((List.range 6).map (fun k =>
        ((leftHandPatterns.getD
            (if (fullCodeSpec s).headD 0 &&& (1 <<< (5 - k)) ≠ 0 then 1 else 0) []).getD
          ((fullCodeSpec s).getD (k + 1) 0) "").data)).flatten
      ++ "01010".data
      ++ ((List.range 6).map (fun k =>
        (rightHandPattern.getD ((fullCodeSpec s).getD (k + 7) 0) "").data)).flatten
      ++ "101".data
      = "101".data
      ++ ((List.range 6).map (fun k =>
        leftChunkSpec ((fullCodeSpec s).headD 0) ((fullCodeSpec s).getD (k + 1) 0) k)).flatten
      ++ "01010".data
      ++ ((List.range 6).map (fun k =>
        rightChunkSpec ((fullCodeSpec s).getD (k + 7) 0))).flatten
      ++ "101".data
  have hmap : (List.range 6).map (fun k =>
        ((leftHandPatterns.getD
            (if (fullCodeSpec s).headD 0 &&& (1 <<< (5 - k)) ≠ 0 then 1 else 0) []).getD
          ((fullCodeSpec s).getD (k + 1) 0) "").data)
      = (List.range 6).map (fun k =>
        leftChunkSpec ((fullCodeSpec s).headD 0) ((fullCodeSpec s).getD (k + 1) 0) k) := by
    apply List.map_congr_left
    intro k hk
    have hk6 : k < 6 := List.mem_range.1 hk
    unfold leftChunkSpec
    rw [parity_bit_eq _ hf _ hk6]
  rw [hmap]
  rfl

theorem encode_length_eq_95 (s : String) (hnum : NumericString s) :
    (getEAN13Encoding s).length = 95 := by
  have hdata := encode_data_eq s hnum
  show (getEAN13Encoding s).data.length = 95
  rw [hdata]
  have hf : (fullCodeSpec s).headD 0 < 10 := fullCodeSpec_headD_lt_ten hnum
  have hleft : (List.range 6).map (List.length ∘ fun k =>
        leftChunkSpec ((fullCodeSpec s).headD 0) ((fullCodeSpec s).getD (k + 1) 0) k)
      = (List.range 6).map (fun _ => 7) := by
    apply List.map_congr_left
    intro k hk
    exact leftPattern_length _ (parity_bit_lt_two _ hf _ (List.mem_range.1 hk)) _
      (fullCodeSpec_getD_lt_ten hnum (k + 1))
  have hright : (List.range 6).map (List.length ∘ fun k =>
        rightChunkSpec ((fullCodeSpec s).getD (k + 7) 0))
      = (List.range 6).map (fun _ => 7) := by
    apply List.map_congr_left
    intro k hk
    exact rightPattern_length _ (fullCodeSpec_getD_lt_ten hnum (k + 7))
  simp only [encodeStructureSpec, List.length_append, List.length_flatten, List.map_map]
  rw [hleft, hright]
  decide

theorem guard_chars_binary : ∀ c ∈ (['1', '0', '1'] : List Char), c = '0' ∨ c = '1' := by
  decide

theorem midguard_chars_binary :
    ∀ c ∈ (['0', '1', '0', '1', '0'] : List Char), c = '0' ∨ c = '1' := by decide

theorem encode_binary (s : String) (hnum : NumericString s) :
    ∀ c ∈ (getEAN13Encoding s).data, c = '0' ∨ c = '1' := by
  have hf : (fullCodeSpec s).headD 0 < 10 := fullCodeSpec_headD_lt_ten hnum
  rw [encode_data_eq s hnum]
  intro c hc
  simp only [encodeStructureSpec, List.mem_append, List.mem_flatten, List.mem_map] at hc
  rcases hc with ((((h | ⟨l, ⟨k, hk, rfl⟩, hcl⟩) | h) | ⟨l, ⟨k, hk, rfl⟩, hcl⟩) | h)
  · exact guard_chars_binary c h
  · exact leftPattern_binary _ (parity_bit_lt_two _ hf _ (List.mem_range.1 hk)) _
      (fullCodeSpec_getD_lt_ten hnum (k + 1)) c hcl
  · exact midguard_chars_binary c h
  · exact rightPattern_binary _ (fullCodeSpec_getD_lt_ten hnum (k + 7)) c hcl
  · exact guard_chars_binary c h

/-- C2 (confirmed): for every 12-digit numeric input, `getEAN13Encoding`
returns exactly 95 modules, each '0' or '1', structured as start guard
"101", six 7-module left-hand chunks whose parity table for position `k`
(0-based) is bit `(firstDigit >>> (5 - k)) &&& 1` of the full code's first
digit, middle guard "01010", six 7-module right-hand chunks from the fixed
right-hand table for positions 7..12 of the 13-digit full code (12 supplied
digits plus computed check digit), and end guard "101". -/
theorem claim_C2_main (s : String) (_h12 : s.data.length = 12) (hnum : NumericString s) :
    (getEAN13Encoding s).length = 95
    ∧ (∀ c ∈ (getEAN13Encoding s).data, c = '0' ∨ c = '1')
    ∧ (getEAN13Encoding s).data = encodeStructureSpec s
    ∧ (fullCodeSpec s).length = 13 :=
  ⟨encode_length_eq_95 s hnum, encode_binary s hnum, encode_data_eq s hnum,
    fullCodeSpec_length s⟩

/-- C2 witness: the spec's round-trip example, a concrete 12-digit code. -/
theorem claim_C2_witness :
    ("789846581577" : String).data.length = 12
    ∧ NumericString "789846581577"
    ∧ (getEAN13Encoding "789846581577").length = 95 :=
  ⟨by decide, by decide, (claim_C2_main "789846581577" (by decide) (by decide)).1⟩

/-! ## Print batch scheduler (src/app/impressao/page.tsx, lines 644-709)

`selectedProducts` is a plain JS object keyed by the numeric `product.id`.
Its model is the list of entries in insertion order; the order a JS
`for...in` loop actually visits (ascending integer keys, per the
ECMAScript own-property order for integer-like keys) is `enumOrder`.
The `invoke("print_label_batch", ...)` device call is an oracle
`device : Nat → Bool` saying whether the call for the i-th batch succeeds;
the run records every batch actually dispatched. -/

structure Product where
  id : Nat
  name : String
  barcode : String
  product_code : String
  name_short : String
deriving DecidableEq

/-- A selected product: a `Product` plus its quantity; `none` models the
transient `''` (unset) sentinel of the quantity input field. -/
structure SelectedProduct where
  product : Product
  quantity : Option Nat
deriving DecidableEq

/-- The selection object, as a key-value list in insertion order. -/
abbrev SelectionMap : Type := List (Nat × SelectedProduct)

/-- Insert an entry into a key-sorted list (ascending key order). -/
def insertByKey (p : Nat × SelectedProduct) :
    List (Nat × SelectedProduct) → List (Nat × SelectedProduct)
  | [] => [p]
  | q :: rest => if p.1 < q.1 then p :: q :: rest else q :: insertByKey p rest

/-- The order in which JS `for...in` visits the object's integer-like keys:
ascending numeric key order (ECMAScript own-property order). -/
def enumOrder : List (Nat × SelectedProduct) → List (Nat × SelectedProduct)
  | [] => []
  | p :: rest => insertByKey p (enumOrder rest)

/-- Quantity used when flattening the print queue:
`product.quantity === '' ? 1 : Number(product.quantity)` (line 664). -/
def quantityForQueue (q : Option Nat) : Nat :=
  match q with
  | none => 1
  | some n => n

/-- Quantity used for the reported total:
`product.quantity === '' ? 0 : Number(product.quantity)` (line 656). -/
def quantityForTotal (q : Option Nat) : Nat :=
  match q with
  | none => 0
  | some n => n

/-- The flat print queue (lines 661-669): iterate the object, pushing
`quantity` repetitions of each product. -/
def buildPrintQueue (selectedProducts : SelectionMap) : List Product :=
  (enumOrder selectedProducts).foldl
    (fun queue e => queue ++ List.replicate (quantityForQueue e.2.quantity) e.2.product) []

/-- Pad a batch shorter than 3 with `null` slots (lines 674-677). -/
def padBatch (b : List Product) : List (Option Product) :=
  b.map some ++ List.replicate (3 - b.length) none

/-- Partition the queue into groups of 3 (`for (let i = 0; i < length; i += 3)`,
line 672), padding the final batch: each iteration takes the slice
`[i, i+3)` and pads it with `null` to length 3. Written structurally (the
slice of up to three elements is matched explicitly) so the function
computes by reduction. -/
def toBatches : List Product → List (List (Option Product))
  | [] => []
  | [a] => [padBatch [a]]
  | [a, b] => [padBatch [a, b]]
  | a :: b :: c :: rest => padBatch [a, b, c] :: toBatches rest

/-- Non-empty slots of a batch: `batch.filter(p => p !== null).length` (line 684). -/
def countNonEmpty (b : List (Option Product)) : Nat :=
  (b.filter (fun p => p ≠ none)).length

/-- One sequential dispatch run (lines 672-693). Each iteration awaits the
device call for the current batch; on success it adds the batch's non-empty
slot count to `totalPrinted` and emits a progress toast
`(totalPrinted, totalToPrint)`; on failure the thrown error aborts the loop
(the failing batch was dispatched, nothing after it is). -/
def runBatches (device : Nat → Bool) (total : Nat) :
    List (List (Option Product)) → Nat → Nat →
      Nat × List (Nat × Nat) × List (List (Option Product)) × Option Nat
  | [], _, printed => (printed, [], [], none)
  | b :: rest, idx, printed =>
    if device idx then
      let printed' := printed + countNonEmpty b
      let r := runBatches device total rest (idx + 1) printed'
      (r.1, (printed', total) :: r.2.1, b :: r.2.2.1, r.2.2.2)
    else
      (printed, [], [b], some idx)

inductive PrintOutcome where
  | configError
  | completed
  | failedAt (i : Nat)
deriving DecidableEq

structure PrintResult where
  outcome : PrintOutcome
  printedCount : Nat
  totalToPrint : Nat
  progress : List (Nat × Nat)
  dispatched : List (List (Option Product))
deriving DecidableEq

/-- Embedding of `handlePrintSelected` (impressao/page.tsx lines 644-709).
The guard `if (!selectedPrinter)` returns a configuration error before any
other step when the context's selected printer is the unset value `""`.
`totalToPrint` sums `quantityForTotal`; the queue flattens
`quantityForQueue` repetitions per entry in `for...in` order; batches of 3
(`null`-padded) are dispatched sequentially until the first failure. -/
def handlePrintSelected (selectedPrinter : String) (selectedProducts : SelectionMap)
    (device : Nat → Bool) : PrintResult :=
  if selectedPrinter = "" then
    { outcome := PrintOutcome.configError, printedCount := 0, totalToPrint := 0,
      progress := [], dispatched := [] }
  else
    let totalToPrint :=
      ((enumOrder selectedProducts).map (fun e => quantityForTotal e.2.quantity)).sum
    let printQueue := buildPrintQueue selectedProducts
    let r := runBatches device totalToPrint (toBatches printQueue) 0 0
    { outcome := match r.2.2.2 with
        | some i => PrintOutcome.failedAt i
        | none => PrintOutcome.completed
      printedCount := r.1
      totalToPrint := totalToPrint
      progress := r.2.1
      dispatched := r.2.2.1 }

/-! ### Scheduler: claim-side definitions -/

/-- Claim-side flattening: per entry, in the object's iteration order,
`quantity` repetitions of the product reference. -/
def flattenSpec (m : SelectionMap) : List Product :=
  ((enumOrder m).map (fun e => List.replicate (quantityForQueue e.2.quantity) e.2.product)).flatten

/-- Claim C6's flattening order: the insertion order of the selection map. -/
def flattenInsertionOrder (m : SelectionMap) : List Product :=
  (m.map (fun e => List.replicate (quantityForQueue e.2.quantity) e.2.product)).flatten

/-- Claim-side progress stream: after each batch the count grows by the
batch's non-empty slots and an event `(printedCount, totalToPrint)` is
emitted. -/
def cumProgress (total : Nat) : Nat → List (List (Option Product)) → List (Nat × Nat)
  | _, [] => []
  | printed, b :: rest =>
    (printed + countNonEmpty b, total) :: cumProgress total (printed + countNonEmpty b) rest

/-! ### Scheduler lemmas -/

theorem foldl_append_replicate (l : List (Nat × SelectedProduct)) : ∀ acc : List Product,
    l.foldl (fun q e => q ++ List.replicate (quantityForQueue e.2.quantity) e.2.product) acc
      = acc ++ (l.map (fun e => List.replicate (quantityForQueue e.2.quantity) e.2.product)).flatten := by
  induction l with
  | nil => intro acc; simp
  | cons e rest ih => intro acc; simp [List.foldl_cons, ih]

theorem buildPrintQueue_eq_flattenSpec (m : SelectionMap) :
    buildPrintQueue m = flattenSpec m := by
  unfold buildPrintQueue flattenSpec
  rw [foldl_append_replicate]
  simp

theorem padBatch_length_three {b : List Product} (h : b.length ≤ 3) :
    (padBatch b).length = 3 := by
  simp [padBatch, List.length_append, List.length_map, List.length_replicate]
  omega

theorem toBatches_length_three (l : List Product) : ∀ b ∈ toBatches l, b.length = 3 := by
  induction l using toBatches.induct with
  | case1 => intro b hb; simp [toBatches] at hb
  | case2 a =>
    intro b hb
    rcases List.mem_singleton.1 hb with rfl
    exact padBatch_length_three (by simp)
  | case3 a x =>
    intro b hb
    rcases List.mem_singleton.1 hb with rfl
    exact padBatch_length_three (by simp)
  | case4 a x c rest ih =>
    intro b hb
    rcases List.mem_cons.1 hb with rfl | h
    · exact padBatch_length_three (by simp)
    · exact ih b h

theorem filterMap_id_map_some (l : List Product) :
    (l.map some).filterMap id = l := by
  induction l with
  | nil => rfl
  | cons p rest ih => simp [ih]

theorem filterMap_id_replicate_none (n : Nat) :
    ((List.replicate n none : List (Option Product)).filterMap id) = [] := by
  induction n with
  | zero => rfl
  | succ n ih => simp [List.replicate_succ, ih]

theorem filterMap_id_padBatch (b : List Product) :
    (padBatch b).filterMap id = b := by
  simp [padBatch, List.filterMap_append, filterMap_id_map_some, filterMap_id_replicate_none]

theorem toBatches_filterMap_flatten (l : List Product) :
    ((toBatches l).map (fun b => b.filterMap id)).flatten = l := by
  induction l using toBatches.induct with
  | case1 => simp [toBatches]
  | case2 a => simp [toBatches, filterMap_id_padBatch]
  | case3 a x => simp [toBatches, filterMap_id_padBatch]
  | case4 a x c rest ih =>
    simp only [toBatches, List.map_cons, List.flatten_cons, filterMap_id_padBatch, ih]
    rfl

theorem countNonEmpty_eq_filterMap_length (b : List (Option Product)) :
    countNonEmpty b = (b.filterMap id).length := by
  induction b with
  | nil => rfl
  | cons o rest ih =>
    cases o with
    | none =>
      simp [countNonEmpty, List.filter_cons, decide_not] at ih ⊢
      omega
    | some p =>
      simp [countNonEmpty, List.filter_cons, decide_not] at ih ⊢
      omega

theorem sum_countNonEmpty_toBatches (l : List Product) :
    ((toBatches l).map countNonEmpty).sum = l.length := by
  have h1 : (toBatches l).map countNonEmpty
      = (toBatches l).map (fun b => (b.filterMap id).length) :=
    List.map_congr_left (fun b _ => countNonEmpty_eq_filterMap_length b)
  rw [h1]
  have h2 : (toBatches l).map (fun b => (b.filterMap id).length)
      = ((toBatches l).map (fun b => b.filterMap id)).map List.length := by
    rw [List.map_map]; rfl
  rw [h2, ← List.length_flatten, toBatches_filterMap_flatten]

theorem runBatches_success (device : Nat → Bool) (total : Nat)
    (h : ∀ i, device i = true) : ∀ (bs : List (List (Option Product))) (idx printed : Nat),
    runBatches device total bs idx printed
      = (printed + (bs.map countNonEmpty).sum, cumProgress total printed bs, bs, none) := by
  intro bs
  induction bs with
  | nil => intro idx printed; simp [runBatches, cumProgress]
  | cons b rest ih =>
    intro idx printed
    simp only [runBatches, h idx, if_true, ih (idx + 1), cumProgress, List.map_cons,
      List.sum_cons]
    refine congrArg (fun n => (n, _, _, _)) ?_
    omega

theorem runBatches_fail (device : Nat → Bool) (total : Nat) :
    ∀ (bs : List (List (Option Product))) (idx printed k : Nat),
    (∀ j, j < k → device (idx + j) = true) → device (idx + k) = false →
    k < bs.length →
    runBatches device total bs idx printed
      = (printed + ((bs.take k).map countNonEmpty).sum,
          cumProgress total printed (bs.take k),
          bs.take (k + 1),
          some (idx + k)) := by
  intro bs
  induction bs with
  | nil => intro idx printed k _ _ hk; simp at hk
  | cons b rest ih =>
    intro idx printed k hok hfail hk
    cases k with
    | zero =>
      have h0 : device idx = false := by simpa using hfail
      simp [runBatches, h0, cumProgress]
    | succ k' =>
      have hdev : device idx = true := by
        have := hok 0 (by omega)
        simpa using this
      have hok' : ∀ j, j < k' → device (idx + 1 + j) = true := by
        intro j hj
        have := hok (j + 1) (by omega)
        rwa [show idx + (j + 1) = idx + 1 + j by omega] at this
      have hfail' : device (idx + 1 + k') = false := by
        rwa [show idx + (k' + 1) = idx + 1 + k' by omega] at hfail
      have hk' : k' < rest.length := by simpa using hk
      simp only [runBatches, hdev, if_true, ih (idx + 1) (printed + countNonEmpty b) k'
        hok' hfail' hk', List.take_succ_cons, List.map_cons, List.sum_cons, cumProgress]
      rw [show printed + (countNonEmpty b + ((rest.take k').map countNonEmpty).sum)
            = printed + countNonEmpty b + ((rest.take k').map countNonEmpty).sum
          from by omega,
        show idx + (k' + 1) = idx + 1 + k' from by omega]

theorem insertByKey_perm (p : Nat × SelectedProduct) (l : List (Nat × SelectedProduct)) :
    List.Perm (insertByKey p l) (p :: l) := by
  induction l with
  | nil => simp [insertByKey]
  | cons q rest ih =>
    rw [insertByKey]
    by_cases h : p.1 < q.1
    · simp [h]
    · simp only [h, if_false]
      exact (ih.cons q).trans (List.Perm.swap p q rest)

theorem enumOrder_perm (m : SelectionMap) : List.Perm (enumOrder m) m := by
  induction m with
  | nil => simp [enumOrder]
  | cons p rest ih =>
    exact (insertByKey_perm p (enumOrder rest)).trans (ih.cons p)

theorem enumOrder_of_ascending (m : SelectionMap)
    (h : List.Chain' (fun a b => a.1 < b.1) m) : enumOrder m = m := by
  induction m with
  | nil => rfl
  | cons p rest ih =>
    rcases List.chain'_cons'.1 h with ⟨hhead, htail⟩
    rw [enumOrder, ih htail]
    cases rest with
    | nil => rfl
    | cons q rest' =>
      have hpq : p.1 < q.1 := hhead q rfl
      simp [insertByKey, hpq]

/-! ### Scheduler: per-claim projection lemmas -/

theorem handle_nonempty_printer (p : String) (hp : p ≠ "") (m : SelectionMap)
    (device : Nat → Bool) :
    handlePrintSelected p m device =
      { outcome := match (runBatches device
            ((enumOrder m).map (fun e => quantityForTotal e.2.quantity)).sum
            (toBatches (buildPrintQueue m)) 0 0).2.2.2 with
          | some i => PrintOutcome.failedAt i
          | none => PrintOutcome.completed
        printedCount := (runBatches device
            ((enumOrder m).map (fun e => quantityForTotal e.2.quantity)).sum
            (toBatches (buildPrintQueue m)) 0 0).1
        totalToPrint := ((enumOrder m).map (fun e => quantityForTotal e.2.quantity)).sum
        progress := (runBatches device
            ((enumOrder m).map (fun e => quantityForTotal e.2.quantity)).sum
            (toBatches (buildPrintQueue m)) 0 0).2.1
        dispatched := (runBatches device
            ((enumOrder m).map (fun e => quantityForTotal e.2.quantity)).sum
            (toBatches (buildPrintQueue m)) 0 0).2.2.1 } := by
  rw [handlePrintSelected, if_neg hp]

theorem buildPrintQueue_length (m : SelectionMap) :
    (buildPrintQueue m).length
      = ((enumOrder m).map (fun e => quantityForQueue e.2.quantity)).sum := by
  rw [buildPrintQueue_eq_flattenSpec, flattenSpec, List.length_flatten, List.map_map]
  refine congrArg List.sum (List.map_congr_left ?_)
  intro e _
  simp

/-- C3 (confirmed): with the unset printer identity (the context's initial
value `""`), `handlePrintSelected` returns the configuration error
immediately: no batch is dispatched, no progress is emitted, nothing else
happens. -/
theorem claim_C3_main (m : SelectionMap) (device : Nat → Bool) :
    handlePrintSelected "" m device
      = { outcome := PrintOutcome.configError, printedCount := 0, totalToPrint := 0,
          progress := [], dispatched := [] } := by
  rw [handlePrintSelected, if_pos rfl]

/-! ### Example fixtures (used by witnesses and counterexamples) -/

def prodA : Product :=
  { id := 1, name := "Torneira pia 18cm", barcode := "7898465815771",
    product_code := "5771", name_short := "Tor.pia.18cm" }

def prodB : Product :=
  { id := 2, name := "Produto B", barcode := "7898465815788",
    product_code := "5772", name_short := "Prod.B" }

/-- The spec example: P1 with quantity 4 added first, P2 with quantity 2. -/
def exSelection : SelectionMap :=
  [(1, { product := prodA, quantity := some 4 }),
   (2, { product := prodB, quantity := some 2 })]

/-- Device oracle that fails exactly on the second batch (index 1). -/
def exDevice : Nat → Bool := fun i => decide (i ≠ 1)

/-- A selection whose first-added product has the larger numeric id. -/
def reversedSelection : SelectionMap :=
  [(2, { product := prodB, quantity := some 1 }),
   (1, { product := prodA, quantity := some 1 })]

/-- A committed selection containing one unset-sentinel quantity. -/
def sentinelSelection : SelectionMap :=
  [(1, { product := prodA, quantity := none }),
   (2, { product := prodB, quantity := some 2 })]

/-- C4 (confirmed): the committed selection is flattened per entry, in the
object's iteration order, into `quantity` repetitions of the product; the
queue is partitioned into consecutive batches of exactly 3 slots with the
final batch right-padded by empty slots; after each successful batch the
printed count grows by the batch's non-empty slots and a progress event
`(printedCount, totalToPrint)` is emitted. -/
theorem claim_C4_main (p : String) (hp : p ≠ "") (m : SelectionMap)
    (device : Nat → Bool) (hdev : ∀ i, device i = true) :
    buildPrintQueue m = flattenSpec m
    ∧ (∀ b ∈ toBatches (buildPrintQueue m), b.length = 3)
    ∧ ((toBatches (buildPrintQueue m)).map (fun b => b.filterMap id)).flatten
        = buildPrintQueue m
    ∧ (handlePrintSelected p m device).progress
        = cumProgress (handlePrintSelected p m device).totalToPrint 0
            (toBatches (buildPrintQueue m))
    ∧ (handlePrintSelected p m device).printedCount = (buildPrintQueue m).length := by
  have hrun := runBatches_success device
    ((enumOrder m).map (fun e => quantityForTotal e.2.quantity)).sum hdev
    (toBatches (buildPrintQueue m)) 0 0
  refine ⟨buildPrintQueue_eq_flattenSpec m, toBatches_length_three _,
    toBatches_filterMap_flatten _, ?_, ?_⟩
  · rw [handle_nonempty_printer p hp m device, hrun]
  · rw [handle_nonempty_printer p hp m device, hrun]
    show 0 + ((toBatches (buildPrintQueue m)).map countNonEmpty).sum = _
    rw [Nat.zero_add, sum_countNonEmpty_toBatches]

/-- C4 witness: the spec example selection (P1 quantity 4, P2 quantity 2):
queue `[P1,P1,P1,P1,P2,P2]`, batches `[[P1,P1,P1],[P1,P2,P2]]`, progress
`(3,6)` then `(6,6)`. -/
theorem claim_C4_witness :
    buildPrintQueue exSelection = [prodA, prodA, prodA, prodA, prodB, prodB]
    ∧ toBatches (buildPrintQueue exSelection)
        = [[some prodA, some prodA, some prodA], [some prodA, some prodB, some prodB]]
    ∧ (handlePrintSelected "Argox OS-2140" exSelection (fun _ => true)).progress
        = [(3, 6), (6, 6)] := by
  have h := claim_C4_main "Argox OS-2140" (by decide) exSelection
    (fun _ => true) (fun _ => rfl)
  refine ⟨by decide, by decide, ?_⟩
  rw [h.2.2.2.1]
  decide

/-- C5 (confirmed): when the device call fails first at batch index `i`
(every earlier call succeeds), the run dispatches exactly the batches up to
and including `i` (no retry, nothing after `i`), reports outcome
`failedAt i`, keeps the printed count accumulated from the batches
completed strictly before `i`, and emits progress events only for those. -/
theorem claim_C5_main (p : String) (hp : p ≠ "") (m : SelectionMap)
    (device : Nat → Bool) (i : Nat) (hok : ∀ j, j < i → device j = true)
    (hfail : device i = false) (hi : i < (toBatches (buildPrintQueue m)).length) :
    (handlePrintSelected p m device).outcome = PrintOutcome.failedAt i
    ∧ (handlePrintSelected p m device).dispatched
        = (toBatches (buildPrintQueue m)).take (i + 1)
    ∧ (handlePrintSelected p m device).printedCount
        = (((toBatches (buildPrintQueue m)).take i).map countNonEmpty).sum
    ∧ (handlePrintSelected p m device).progress
        = cumProgress (handlePrintSelected p m device).totalToPrint 0
            ((toBatches (buildPrintQueue m)).take i) := by
  have hok' : ∀ j, j < i → device (0 + j) = true := by
    intro j hj
    rw [Nat.zero_add]
    exact hok j hj
  have hfail' : device (0 + i) = false := by rwa [Nat.zero_add]
  have hrun := runBatches_fail device
    ((enumOrder m).map (fun e => quantityForTotal e.2.quantity)).sum
    (toBatches (buildPrintQueue m)) 0 0 i hok' hfail' hi
  rw [Nat.zero_add] at hrun
  refine ⟨?_, ?_, ?_, ?_⟩ <;> rw [handle_nonempty_printer p hp m device, hrun]
  rw [Nat.zero_add]

/-- C5 witness: the spec example failing on the second batch: printed count
3, outcome `failedAt 1`, exactly two batches dispatched. -/
theorem claim_C5_witness :
    (handlePrintSelected "Argox OS-2140" exSelection exDevice).printedCount = 3
    ∧ (handlePrintSelected "Argox OS-2140" exSelection exDevice).outcome
        = PrintOutcome.failedAt 1
    ∧ (handlePrintSelected "Argox OS-2140" exSelection exDevice).dispatched
        = [[some prodA, some prodA, some prodA], [some prodA, some prodB, some prodB]] := by
  have h := claim_C5_main "Argox OS-2140" (by decide) exSelection exDevice 1
    (by decide) (by decide) (by decide)
  refine ⟨?_, h.1, ?_⟩
  · rw [h.2.2.1]; decide
  · rw [h.2.1]; decide

/-- C6 counterexample: add the product with id 2 first, then the product
with id 1. Insertion-order flattening would print `[prodB, prodA]`, but the
JS `for...in` loop visits the integer-like keys in ascending numeric order,
so the device receives `[prodA, prodB]`. -/
theorem claim_C6_counterexample :
    ((handlePrintSelected "Argox OS-2140" reversedSelection (fun _ => true)).dispatched.map
        (fun b => b.filterMap id)).flatten = [prodA, prodB]
    ∧ flattenInsertionOrder reversedSelection = [prodB, prodA]
    ∧ ((handlePrintSelected "Argox OS-2140" reversedSelection (fun _ => true)).dispatched.map
        (fun b => b.filterMap id)).flatten ≠ flattenInsertionOrder reversedSelection := by
  refine ⟨by decide, by decide, by decide⟩

/-- C6 (amended): the product references sent to the device across all
batches are exactly the flattening order, but the flattening follows the
object's enumeration order — ascending numeric product id — rather than
insertion order; the two agree exactly when the products were added in
ascending id order. -/
theorem claim_C6_main (p : String) (hp : p ≠ "") (m : SelectionMap)
    (device : Nat → Bool) (hdev : ∀ i, device i = true) :
    ((handlePrintSelected p m device).dispatched.map (fun b => b.filterMap id)).flatten
        = buildPrintQueue m
    ∧ buildPrintQueue m = flattenSpec m
    ∧ (List.Chain' (fun a b => a.1 < b.1) m → enumOrder m = m)
    ∧ (List.Chain' (fun a b => a.1 < b.1) m →
        buildPrintQueue m = flattenInsertionOrder m) := by
  have hrun := runBatches_success device
    ((enumOrder m).map (fun e => quantityForTotal e.2.quantity)).sum hdev
    (toBatches (buildPrintQueue m)) 0 0
  refine ⟨?_, buildPrintQueue_eq_flattenSpec m, enumOrder_of_ascending m, ?_⟩
  · rw [handle_nonempty_printer p hp m device, hrun]
    exact toBatches_filterMap_flatten _
  · intro hasc
    rw [buildPrintQueue_eq_flattenSpec, flattenSpec, flattenInsertionOrder,
      enumOrder_of_ascending m hasc]

/-- C6 witness: for the ascending-id spec example the dispatch order, the
flattening order and the insertion order all coincide. -/
theorem claim_C6_witness :
    ((handlePrintSelected "Argox OS-2140" exSelection (fun _ => true)).dispatched.map
        (fun b => b.filterMap id)).flatten
      = [prodA, prodA, prodA, prodA, prodB, prodB]
    ∧ buildPrintQueue exSelection = flattenInsertionOrder exSelection := by
  have h := claim_C6_main "Argox OS-2140" (by decide) exSelection
    (fun _ => true) (fun _ => rfl)
  have hasc : List.Chain' (fun a b : Nat × SelectedProduct => a.1 < b.1) exSelection :=
    List.chain'_cons.2 ⟨by decide, List.chain'_singleton _⟩
  refine ⟨?_, h.2.2.2 hasc⟩
  rw [h.1]
  decide

/-- C10 (confirmed, implicit behaviour): an entry with the unset sentinel
quantity contributes 1 to the flat queue (`'' ? 1 : quantity`) but 0 to the
reported total (`'' ? 0 : quantity`); hence a fully completed run over a
selection containing a sentinel entry finishes with a printed count
strictly above the `totalToPrint` used in progress events, while a
sentinel-free selection finishes with printed count equal to it. -/
theorem claim_C10_main (p : String) (hp : p ≠ "") (m : SelectionMap)
    (device : Nat → Bool) (hdev : ∀ i, device i = true) :
    (handlePrintSelected p m device).printedCount = (buildPrintQueue m).length
    ∧ ((∃ e ∈ m, e.2.quantity = none) →
        (handlePrintSelected p m device).totalToPrint
          < (handlePrintSelected p m device).printedCount)
    ∧ ((∀ e ∈ m, e.2.quantity ≠ none) →
        (handlePrintSelected p m device).printedCount
          = (handlePrintSelected p m device).totalToPrint) := by
  have hrun := runBatches_success device
    ((enumOrder m).map (fun e => quantityForTotal e.2.quantity)).sum hdev
    (toBatches (buildPrintQueue m)) 0 0
  have hcount : (handlePrintSelected p m device).printedCount
      = (buildPrintQueue m).length := by
    rw [handle_nonempty_printer p hp m device, hrun]
    show 0 + ((toBatches (buildPrintQueue m)).map countNonEmpty).sum = _
    rw [Nat.zero_add, sum_countNonEmpty_toBatches]
  have htotal : (handlePrintSelected p m device).totalToPrint
      = ((enumOrder m).map (fun e => quantityForTotal e.2.quantity)).sum := by
    rw [handle_nonempty_printer p hp m device]
  refine ⟨hcount, ?_, ?_⟩
  · rintro ⟨e, hem, hq⟩
    rw [hcount, htotal, buildPrintQueue_length]
    apply List.sum_lt_sum
    · intro x _
      cases hx : x.2.quantity <;> simp [quantityForTotal, quantityForQueue]
    · refine ⟨e, ((enumOrder_perm m).mem_iff).2 hem, ?_⟩
      rw [hq]
      decide
  · intro hall
    rw [hcount, htotal, buildPrintQueue_length]
    refine congrArg List.sum (List.map_congr_left ?_)
    intro e hem
    have he : e.2.quantity ≠ none := hall e (((enumOrder_perm m).mem_iff).1 hem)
    cases hx : e.2.quantity with
    | none => exact absurd hx he
    | some n => simp [quantityForTotal, quantityForQueue]

/-- C10 witness: the sentinel selection (P1 unset, P2 quantity 2) completes
with printed count 3 while the reported total is 2. -/
theorem claim_C10_witness :
    (handlePrintSelected "Argox OS-2140" sentinelSelection (fun _ => true)).printedCount = 3
    ∧ (handlePrintSelected "Argox OS-2140" sentinelSelection (fun _ => true)).totalToPrint = 2
    ∧ (handlePrintSelected "Argox OS-2140" sentinelSelection (fun _ => true)).totalToPrint
        < (handlePrintSelected "Argox OS-2140" sentinelSelection
            (fun _ => true)).printedCount := by
  refine ⟨by decide, by decide, ?_⟩
  exact (claim_C10_main "Argox OS-2140" (by decide) sentinelSelection
    (fun _ => true) (fun _ => rfl)).2.1
    ⟨(1, { product := prodA, quantity := none }), by decide, rfl⟩

/-! ## Printer identity store (src/contexts/printer-context.tsx)

The provider's state and its three persistence tiers are one record:
the backend store (`get_printer_settings` / `save_printer_settings`),
the localStorage keys `selectedPrinter`, `cachedPrinters` and
`printersCacheTime`, and the React session state (`selectedPrinter`,
`config`, `printers`). External calls are recorded (`saveCalls`,
`connectCalls`) or traced as events, and `invoke` outcomes are oracle
parameters. -/

structure PrinterConfig where
  darkness : Nat
  width : Nat
  height : Nat
  speed : Nat
  port : String
  selected_printer : Option String
deriving DecidableEq

/-- The provider's `useState` initial config (printer-context.tsx lines 56-62). -/
def defaultPrinterConfig : PrinterConfig :=
  { darkness := 8, width := 840, height := 176, speed := 2, port := "Windows",
    selected_printer := none }

structure CtxState where
  backendSettings : Option PrinterConfig
  lsSelectedPrinter : Option String
  lsCachedPrinters : Option (List String)
  lsCacheTime : Option Nat
  printers : List String
  selectedPrinter : String
  config : PrinterConfig
  saveCalls : List PrinterConfig
  connectCalls : List String
deriving DecidableEq

/-- JS truthiness on an optional string: `null`, `undefined` and `""` are
falsy; a truthy value is returned as-is. -/
def jsTruthy : Option String → Option String
  | none => none
  | some s => if s = "" then none else some s

/-- JS `a || b` on optional strings. -/
def orTruthy (a b : Option String) : Option String :=
  match jsTruthy a with
  | some s => some s
  | none => b

/-- Embedding of `processPrinters` (printer-context.tsx lines 67-84):
store the found list, adopt the saved printer if it is truthy and present
in the list, else adopt the first found printer when nothing is selected,
then write `cachedPrinters` and `printersCacheTime` to localStorage. -/
def processPrinters (st : CtxState) (found : List String) (savedPrinter : Option String)
    (now : Nat) : CtxState :=
  let st1 := { st with printers := found }
  let st2 :=
    match jsTruthy savedPrinter with
    | some sp =>
      if sp ∈ found then { st1 with selectedPrinter := sp }
      else if st1.selectedPrinter = "" ∧ found ≠ [] then
        { st1 with selectedPrinter := found.headD "" }
      else st1
    | none =>
      if st1.selectedPrinter = "" ∧ found ≠ [] then
        { st1 with selectedPrinter := found.headD "" }
      else st1
  { st2 with lsCachedPrinters := some found, lsCacheTime := some now }

/-- Observable actions of one `searchPrinters` call. -/
inductive SPEvent where
  | showedPrinters (found : List String)
  | enumerationCall
deriving DecidableEq

def countEnumCalls : List SPEvent → Nat
  | [] => 0
  | SPEvent.enumerationCall :: rest => countEnumCalls rest + 1
  | SPEvent.showedPrinters _ :: rest => countEnumCalls rest

/-- JS `cacheAgeMs < bound` where a missing timestamp means
`POSITIVE_INFINITY` (line 125). -/
def cacheAgeLt (cacheTime : Option Nat) (now bound : Nat) : Bool :=
  match cacheTime with
  | some t => decide (now - t < bound)
  | none => false

/-- The external enumeration (`invoke("list_printers")`, line 143) followed
by `processPrinters` on its result. -/
def searchQuery (st : CtxState) (now : Nat) (enumResult : List String) :
    CtxState × List SPEvent :=
  (processPrinters st enumResult (orTruthy st.config.selected_printer st.lsSelectedPrinter) now,
   [SPEvent.enumerationCall, SPEvent.showedPrinters enumResult])

/-- Embedding of `searchPrinters` (printer-context.tsx lines 119-165).
If a cached list exists and is younger than 5 minutes, a non-empty parsed
cache is shown immediately; if additionally younger than 30 seconds and no
toasts were requested, the function returns without querying. Otherwise the
external enumeration is issued and processed. -/
def searchPrinters (st : CtxState) (now : Nat) (showToasts : Bool)
    (enumResult : List String) : CtxState × List SPEvent :=
  match st.lsCachedPrinters with
  | some cached =>
    if cacheAgeLt st.lsCacheTime now 300000 then
      if cached.length > 0 then
        let stShown := processPrinters st cached
          (orTruthy st.config.selected_printer st.lsSelectedPrinter) now
        if cacheAgeLt st.lsCacheTime now 30000 ∧ showToasts = false then
          (stShown, [SPEvent.showedPrinters cached])
        else
          let q := searchQuery stShown now enumResult
          (q.1, SPEvent.showedPrinters cached :: q.2)
      else searchQuery st now enumResult
    else searchQuery st now enumResult
  | none => searchQuery st now enumResult

/-- Embedding of `loadSavedConfig` (printer-context.tsx lines 168-228),
the startup reconciliation: backend settings win and heal the localStorage
cache; otherwise a truthy cached `selectedPrinter` entry becomes session
truth and is written back to the backend store. -/
def loadSavedConfig (st : CtxState) : CtxState :=
  match st.backendSettings with
  | some savedConfig =>
    let stc := { st with config := savedConfig }
    match jsTruthy savedConfig.selected_printer with
    | some sp =>
      { stc with selectedPrinter := sp, lsSelectedPrinter := some sp }
    | none =>
      match jsTruthy stc.lsSelectedPrinter with
      | some localPrinter =>
        let updatedConfig := { savedConfig with selected_printer := some localPrinter }
        { stc with
          selectedPrinter := localPrinter
          config := updatedConfig
          backendSettings := some updatedConfig
          saveCalls := stc.saveCalls ++ [updatedConfig] }
      | none => stc
  | none =>
    match jsTruthy st.lsSelectedPrinter with
    | some localPrinter =>
      let newConfig := { st.config with selected_printer := some localPrinter }
      { st with
        selectedPrinter := localPrinter
        config := newConfig
        backendSettings := some newConfig
        saveCalls := st.saveCalls ++ [newConfig] }
    | none => st

/-- Embedding of `setSelectedPrinter` (printer-context.tsx lines 87-117):
session state first, localStorage second (`lsOk` is whether
`localStorage.setItem` succeeded), then the awaited backend save and
connect calls inside `try`; a failure of either returns `false` but leaves
everything already written in place. -/
def setSelectedPrinter (st : CtxState) (printer : String) (lsOk saveOk connectOk : Bool) :
    CtxState × Bool :=
  let st1 := { st with selectedPrinter := printer }
  let st2 := if lsOk then { st1 with lsSelectedPrinter := some printer } else st1
  let fullConfig := { st2.config with port := "Windows", selected_printer := some printer }
  let st3 := { st2 with saveCalls := st2.saveCalls ++ [fullConfig] }
  if saveOk then
    let st4 := { st3 with
      backendSettings := some fullConfig
      connectCalls := st3.connectCalls ++ [printer] }
    if connectOk then (st4, true) else (st4, false)
  else (st3, false)

/-! ### Printer identity store: claim theorems -/

/-- C7 (confirmed): startup reconciliation resolves with precedence backend
over cache. A truthy backend `selected_printer` becomes session truth and
is written into the localStorage cache (no backend write happens); else a
truthy cached entry becomes session truth and is written back to the
backend store. -/
theorem claim_C7_main (st : CtxState) :
    (∀ cfg sp, st.backendSettings = some cfg → jsTruthy cfg.selected_printer = some sp →
      (loadSavedConfig st).selectedPrinter = sp
      ∧ (loadSavedConfig st).lsSelectedPrinter = some sp
      ∧ (loadSavedConfig st).saveCalls = st.saveCalls)
    ∧ (∀ cfg lp, st.backendSettings = some cfg → jsTruthy cfg.selected_printer = none →
      jsTruthy st.lsSelectedPrinter = some lp →
      (loadSavedConfig st).selectedPrinter = lp
      ∧ (loadSavedConfig st).backendSettings = some { cfg with selected_printer := some lp }
      ∧ (loadSavedConfig st).saveCalls
          = st.saveCalls ++ [{ cfg with selected_printer := some lp }])
    ∧ (∀ lp, st.backendSettings = none → jsTruthy st.lsSelectedPrinter = some lp →
      (loadSavedConfig st).selectedPrinter = lp
      ∧ (loadSavedConfig st).backendSettings
          = some { st.config with selected_printer := some lp }
      ∧ (loadSavedConfig st).saveCalls
          = st.saveCalls ++ [{ st.config with selected_printer := some lp }]) := by
  refine ⟨?_, ?_, ?_⟩
  · intro cfg sp hb ht
    simp [loadSavedConfig, hb, ht]
  · intro cfg lp hb ht hl
    simp [loadSavedConfig, hb, ht, hl]
  · intro lp hb hl
    simp [loadSavedConfig, hb, hl]

/-- The spec's reconciliation example: backend holds `"HP-Thermal"`, the
localStorage cache holds the stale `"Argox-OS2140"`. -/
def staleCacheCtx : CtxState :=
  { backendSettings := some { defaultPrinterConfig with selected_printer := some "HP-Thermal" }
    lsSelectedPrinter := some "Argox-OS2140"
    lsCachedPrinters := none
    lsCacheTime := none
    printers := []
    selectedPrinter := ""
    config := defaultPrinterConfig
    saveCalls := []
    connectCalls := [] }

/-- C7 witness: with backend `"HP-Thermal"` and stale cache
`"Argox-OS2140"`, reconciliation adopts `"HP-Thermal"` and overwrites the
cache to match. -/
theorem claim_C7_witness :
    (loadSavedConfig staleCacheCtx).selectedPrinter = "HP-Thermal"
    ∧ (loadSavedConfig staleCacheCtx).lsSelectedPrinter = some "HP-Thermal" := by
  have h := (claim_C7_main staleCacheCtx).1
    { defaultPrinterConfig with selected_printer := some "HP-Thermal" } "HP-Thermal"
    rfl (by decide)
  exact ⟨h.1, h.2.1⟩

/-- C8 (confirmed): `setSelectedPrinter` writes the session selection and
the localStorage entry before the awaited persistence calls, and a failing
backend save or connect call never reverts them: the resulting session
selection and cache entry do not depend on the persistence outcome, which
only determines the returned boolean. -/
theorem claim_C8_main (st : CtxState) (printer : String) (lsOk saveOk connectOk : Bool) :
    (setSelectedPrinter st printer lsOk saveOk connectOk).1.selectedPrinter = printer
    ∧ (lsOk = true →
        (setSelectedPrinter st printer lsOk saveOk connectOk).1.lsSelectedPrinter
          = some printer)
    ∧ (setSelectedPrinter st printer lsOk saveOk connectOk).1.selectedPrinter
        = (setSelectedPrinter st printer lsOk true true).1.selectedPrinter
    ∧ (setSelectedPrinter st printer lsOk saveOk connectOk).1.lsSelectedPrinter
        = (setSelectedPrinter st printer lsOk true true).1.lsSelectedPrinter
    ∧ ((setSelectedPrinter st printer lsOk saveOk connectOk).2 = true ↔
        saveOk = true ∧ connectOk = true) := by
  cases lsOk <;> cases saveOk <;> cases connectOk <;>
    simp [setSelectedPrinter]

/-- C8 witness: selecting `"HP-Thermal"` with both persistence calls
failing still leaves session and cache at `"HP-Thermal"`. -/
theorem claim_C8_witness :
    (setSelectedPrinter staleCacheCtx "HP-Thermal" true false false).1.selectedPrinter
        = "HP-Thermal"
    ∧ (setSelectedPrinter staleCacheCtx "HP-Thermal" true false false).1.lsSelectedPrinter
        = some "HP-Thermal"
    ∧ (setSelectedPrinter staleCacheCtx "HP-Thermal" true false false).2 = false := by
  have h := claim_C8_main staleCacheCtx "HP-Thermal" true false false
  refine ⟨h.1, h.2.1 rfl, ?_⟩
  decide

/-! ### Discovery caching lemmas (claim C9) -/

theorem processPrinters_lsCachedPrinters (st : CtxState) (found : List String)
    (sp : Option String) (now : Nat) :
    (processPrinters st found sp now).lsCachedPrinters = some found := rfl

theorem processPrinters_lsCacheTime (st : CtxState) (found : List String)
    (sp : Option String) (now : Nat) :
    (processPrinters st found sp now).lsCacheTime = some now := rfl

theorem searchPrinters_fresh30_silent (st : CtxState) (now t : Nat)
    (l enumResult : List String) (hcp : st.lsCachedPrinters = some l) (hl : l ≠ [])
    (ht : st.lsCacheTime = some t) (h30 : now - t < 30000) :
    (searchPrinters st now false enumResult).2 = [SPEvent.showedPrinters l]
    ∧ (searchPrinters st now false enumResult).1
      = processPrinters st l (orTruthy st.config.selected_printer st.lsSelectedPrinter)
          now := by
  have h5 : cacheAgeLt st.lsCacheTime now 300000 = true := by
    simp [cacheAgeLt, ht]
    omega
  have h30' : cacheAgeLt st.lsCacheTime now 30000 = true := by
    simp [cacheAgeLt, ht]
    omega
  have hlen : l.length > 0 := List.length_pos.2 hl
  constructor <;> simp [searchPrinters, hcp, h5, h30', hlen]

theorem searchPrinters_fresh5_shows_first (st : CtxState) (now t : Nat)
    (l enumResult : List String) (toasts : Bool) (hcp : st.lsCachedPrinters = some l)
    (hl : l ≠ []) (ht : st.lsCacheTime = some t) (h5 : now - t < 300000) :
    ((searchPrinters st now toasts enumResult).2).head?
      = some (SPEvent.showedPrinters l) := by
  have h5' : cacheAgeLt st.lsCacheTime now 300000 = true := by
    simp [cacheAgeLt, ht]
    omega
  have hlen : l.length > 0 := List.length_pos.2 hl
  simp only [searchPrinters, hcp, h5', hlen, if_true]
  split <;> simp [searchQuery]

theorem searchPrinters_refresh_queries (st : CtxState) (now : Nat)
    (enumResult : List String) :
    SPEvent.enumerationCall ∈ (searchPrinters st now true enumResult).2 := by
  rcases hcp : st.lsCachedPrinters with - | l
  · simp [searchPrinters, hcp, searchQuery]
  · simp only [searchPrinters, hcp]
    split
    · split
      · simp [searchQuery]
      · simp [searchQuery]
    · simp [searchQuery]

theorem searchPrinters_pair_single_call (st : CtxState) (now1 now2 : Nat)
    (enum1 enum2 : List String) (hcp : st.lsCachedPrinters = none) (h1 : enum1 ≠ [])
    (h2 : now2 - now1 < 30000) :
    countEnumCalls (searchPrinters st now1 false enum1).2
      + countEnumCalls
          (searchPrinters (searchPrinters st now1 false enum1).1 now2 false enum2).2
      = 1 := by
  have hfirst : searchPrinters st now1 false enum1 = searchQuery st now1 enum1 := by
    simp [searchPrinters, hcp]
  rw [hfirst]
  have hcp1 : (searchQuery st now1 enum1).1.lsCachedPrinters = some enum1 := rfl
  have hct1 : (searchQuery st now1 enum1).1.lsCacheTime = some now1 := rfl
  have hsecond := (searchPrinters_fresh30_silent (searchQuery st now1 enum1).1 now2 now1
    enum1 enum2 hcp1 h1 hct1 h2).1
  rw [hsecond]
  simp [searchQuery, countEnumCalls]

/-- Initial provider state: nothing cached, nothing selected, defaults. -/
def emptyCacheCtx : CtxState :=
  { backendSettings := none
    lsSelectedPrinter := none
    lsCachedPrinters := none
    lsCacheTime := none
    printers := []
    selectedPrinter := ""
    config := defaultPrinterConfig
    saveCalls := []
    connectCalls := [] }

/-- C9 counterexample: two silent discovery requests 10 seconds apart,
starting from the empty-cache state, when the OS enumeration finds no
printers. The first call caches the empty list, but the 30-second gate only
fires for a non-empty cached list (`cached.length > 0`, line 129), so the
second request issues another enumeration call: two calls, not exactly
one. -/
theorem claim_C9_counterexample :
    (10000 : Nat) - 0 < 30000
    ∧ countEnumCalls (searchPrinters emptyCacheCtx 0 false []).2 = 1
    ∧ countEnumCalls
        (searchPrinters (searchPrinters emptyCacheCtx 0 false []).1 10000 false []).2 = 1
    ∧ countEnumCalls (searchPrinters emptyCacheCtx 0 false []).2
        + countEnumCalls
            (searchPrinters (searchPrinters emptyCacheCtx 0 false []).1 10000 false []).2
        ≠ 1 := by
  refine ⟨by decide, by decide, by decide, by decide⟩

/-- C9 (amended): the freshness gate holds for non-empty discovery results.
With a non-empty cached list younger than 30 seconds, a silent request
issues no enumeration call and just shows the cache; a non-empty cached
list younger than 5 minutes is shown before any query completes; an
explicit (toast-requesting) refresh always issues an enumeration call; and
two silent requests less than 30 seconds apart starting with no cache issue
exactly one enumeration call provided the first enumeration returns a
non-empty list (an empty result re-queries, as the counterexample shows). -/
theorem claim_C9_main :
    (∀ (st : CtxState) (now t : Nat) (l enumResult : List String),
      st.lsCachedPrinters = some l → l ≠ [] → st.lsCacheTime = some t →
      now - t < 30000 →
      (searchPrinters st now false enumResult).2 = [SPEvent.showedPrinters l])
    ∧ (∀ (st : CtxState) (now t : Nat) (l enumResult : List String) (toasts : Bool),
      st.lsCachedPrinters = some l → l ≠ [] → st.lsCacheTime = some t →
      now - t < 300000 →
      ((searchPrinters st now toasts enumResult).2).head?
        = some (SPEvent.showedPrinters l))
    ∧ (∀ (st : CtxState) (now : Nat) (enumResult : List String),
      SPEvent.enumerationCall ∈ (searchPrinters st now true enumResult).2)
    ∧ (∀ (st : CtxState) (now1 now2 : Nat) (enum1 enum2 : List String),
      st.lsCachedPrinters = none → enum1 ≠ [] → now2 - now1 < 30000 →
      countEnumCalls (searchPrinters st now1 false enum1).2
        + countEnumCalls
            (searchPrinters (searchPrinters st now1 false enum1).1 now2 false enum2).2
        = 1) := by
  refine ⟨?_, ?_, ?_, ?_⟩
  · intro st now t l enumResult hcp hl ht h30
    exact (searchPrinters_fresh30_silent st now t l enumResult hcp hl ht h30).1
  · intro st now t l enumResult toasts hcp hl ht h5
    exact searchPrinters_fresh5_shows_first st now t l enumResult toasts hcp hl ht h5
  · intro st now enumResult
    exact searchPrinters_refresh_queries st now enumResult
  · intro st now1 now2 enum1 enum2 hcp h1 h2
    exact searchPrinters_pair_single_call st now1 now2 enum1 enum2 hcp h1 h2

/-- C9 witness: from the empty-cache state, a silent request finding one
printer followed by a second silent request 10 seconds later issues exactly
one enumeration call in total. -/
theorem claim_C9_witness :
    countEnumCalls (searchPrinters emptyCacheCtx 0 false ["HP-Thermal"]).2
      + countEnumCalls
          (searchPrinters (searchPrinters emptyCacheCtx 0 false ["HP-Thermal"]).1
            10000 false ["HP-Thermal"]).2
      = 1 :=
  claim_C9_main.2.2.2 emptyCacheCtx 0 10000 ["HP-Thermal"] ["HP-Thermal"]
    rfl (by decide) (by decide)
